import Mathlib

/-!
Verification of the BloxPy Roblox REST client against its specification.

The Python sources (BloxPy/Users.py, BloxPy/Groups.py, BloxPy/Badges.py,
BloxPy/Search.py, _exceptions/RobloxExceptions.py) are shallowly embedded
below.  JSON values are modelled by an inductive type, Python dictionary and
list accesses by fallible functions in the Except monad, and each public
operation by three pieces:

  - a URL builder (the pre-flight parameter validation and query building),
  - a status dispatch (the status-code if chain of the operation),
  - a parser for the 200 branch (the JSON-to-record mapping).

A run function composes builder and dispatch through a network oracle of
type String -> HttpResponse, so a validation failure that is independent of
the oracle corresponds to failing before the network request is made.
-/

namespace BloxPy

/-- JSON values as delivered by response.json(). Numbers are modelled as
integers, which covers every field the claims touch. -/
inductive Json where
  | null : Json
  | bool (b : Bool) : Json
  | num (n : Int) : Json
  | str (s : String) : Json
  | arr (items : List Json) : Json
  | obj (fields : List (String × Json)) : Json

/-- First-match lookup in a JSON object field list (Python dict lookup). -/
def jlookup : List (String × Json) → String → Option Json
  | [], _ => none
  | (k, v) :: rest, key => if k = key then some v else jlookup rest key

/-- Python truthiness of a JSON value: None, False, 0, empty string, empty
list and empty dict are falsy; everything else is truthy. -/
def truthy : Json → Bool
  | .null => false
  | .bool b => b
  | .num n => n != 0
  | .str s => s != ""
  | .arr items => !items.isEmpty
  | .obj fields => !fields.isEmpty

/-- Python truthiness of an optional JSON value (Python None is falsy). -/
def truthyOpt : Option Json → Bool
  | none => false
  | some j => truthy j

/-- The exception kinds of _exceptions/RobloxExceptions.py, each carrying
the message value passed to the constructor at the raise site. -/
inductive RobloxError where
  | notFound (msg : Json)
  | badRequest (msg : Json)
  | unauthorized (msg : Json)
  | rateLimited (msg : Json)
  | internalServer (msg : Json)
  | unexpected (msg : Json)
  | searchTermInappropriate (msg : Json)
  | searchTermEmpty (msg : Json)
  | searchTermLength (msg : Json)
  | searchTermFiltered (msg : Json)
  | searchTermTooShort (msg : Json)

/-- Failures an operation can surface: a raised library exception, or a
Python-level error raised by the interpreter itself. -/
inductive Err where
  | api (e : RobloxError)
  | keyError (key : String)
  | indexError (msg : String)
  | typeError (msg : String)
  | attributeError (msg : String)
  | valueError (msg : String)
  | unboundLocal (name : String)

/-- Python d[k] subscription: KeyError on a dict without the key, TypeError
when the value is a list, string or scalar. -/
def pyIndexStr : Json → String → Except Err Json
  | .obj fields, key =>
    match jlookup fields key with
    | some v => .ok v
    | none => .error (.keyError key)
  | .arr _, _ => .error (.typeError "list indices must be integers")
  | .str _, _ => .error (.typeError "string indices must be integers")
  | _, _ => .error (.typeError "object is not subscriptable")

/-- Python xs[i] subscription with an integer index. -/
def pyIndexNat : Json → Nat → Except Err Json
  | .arr items, i =>
    match items.get? i with
    | some v => .ok v
    | none => .error (.indexError "list index out of range")
  | .obj _, i => .error (.keyError (toString i))
  | .str s, i =>
    match s.data.get? i with
    | some c => .ok (.str (String.singleton c))
    | none => .error (.indexError "string index out of range")
  | _, _ => .error (.typeError "object is not subscriptable")

/-- Python d.get(k, None): key-presence lookup that never raises on a dict;
AttributeError when the receiver is not a dict. -/
def pyGetOpt : Json → String → Except Err (Option Json)
  | .obj fields, key => .ok (jlookup fields key)
  | _, _ => .error (.attributeError "object has no attribute get")

/-- Python d.get(k, default) with an explicit default value. -/
def pyGetD : Json → String → Json → Except Err Json
  | .obj fields, key, dflt =>
    match jlookup fields key with
    | some v => .ok v
    | none => .ok dflt
  | _, _, _ => .error (.attributeError "object has no attribute get")

/-- Python iteration over a JSON value: lists yield elements, dicts yield
keys, strings yield characters, scalars raise TypeError. -/
def pyIter : Json → Except Err (List Json)
  | .arr items => .ok items
  | .obj fields => .ok (fields.map fun p => Json.str p.fst)
  | .str s => .ok (s.data.map fun c => Json.str (String.singleton c))
  | _ => .error (.typeError "object is not iterable")

/-- Python int(x) applied to a JSON value. -/
def pyInt : Json → Except Err Int
  | .num n => .ok n
  | .bool b => .ok (if b then 1 else 0)
  | .str s =>
    match s.toInt? with
    | some n => .ok n
    | none => .error (.valueError "invalid literal for int")
  | _ => .error (.typeError "argument must be a string or a number")

/-- Boolean success test for an Except value. -/
def exceptIsOk {α : Type} : Except Err α → Bool
  | .ok _ => true
  | .error _ => false

/-! ## The exception class hierarchy of _exceptions/RobloxExceptions.py -/

/-- The exception classes declared in RobloxExceptions.py, plus the Python
builtin Exception they ultimately derive from. -/
inductive ExcCls where
  | pythonBase
  | RobloxApiError
  | RobloxNotFoundError
  | RobloxBadRequestError
  | RobloxUnauthorizedError
  | RobloxRateLimitError
  | RobloxInternalServerError
  | RobloxUnexpectedError
  | RobloxSearchTermError
  | RobloxSearchTermInappropriateError
  | RobloxSearchTermEmptyError
  | RobloxSearchTermLengthError
  | RobloxSearchTermFilteredError
  | RobloxSearchTermTooShort
deriving DecidableEq

/-- The direct base class of each class, transcribed from the class
statements of RobloxExceptions.py. -/
def superclassOf : ExcCls → Option ExcCls
  | .pythonBase => none
  | .RobloxApiError => some .pythonBase
  | .RobloxNotFoundError => some .RobloxApiError
  | .RobloxBadRequestError => some .RobloxApiError
  | .RobloxUnauthorizedError => some .RobloxApiError
  | .RobloxRateLimitError => some .RobloxApiError
  | .RobloxInternalServerError => some .RobloxApiError
  | .RobloxUnexpectedError => some .RobloxApiError
  | .RobloxSearchTermError => some .RobloxApiError
  | .RobloxSearchTermInappropriateError => some .RobloxSearchTermError
  | .RobloxSearchTermEmptyError => some .RobloxSearchTermError
  | .RobloxSearchTermLengthError => some .RobloxSearchTermError
  | .RobloxSearchTermFilteredError => some .RobloxSearchTermError
  | .RobloxSearchTermTooShort => some .RobloxSearchTermError

/-- The class and its base classes, walking superclassOf with enough fuel
for the whole fourteen-class hierarchy. -/
def ancestorsAux : Nat → ExcCls → List ExcCls
  | 0, c => [c]
  | fuel + 1, c =>
    c :: (match superclassOf c with
          | none => []
          | some p => ancestorsAux fuel p)

/-- All classes an instance of c is an instance of. -/
def ancestors (c : ExcCls) : List ExcCls :=
  ancestorsAux 14 c

/-- Python isinstance/except semantics: c is caught by a handler for d. -/
def isSubclassOf (c d : ExcCls) : Bool :=
  decide (d ∈ ancestors c)

/-- The class each raised error kind is an instance of, read off the raise
sites across the BloxPy modules. -/
def clsOf : RobloxError → ExcCls
  | .notFound _ => .RobloxNotFoundError
  | .badRequest _ => .RobloxBadRequestError
  | .unauthorized _ => .RobloxUnauthorizedError
  | .rateLimited _ => .RobloxRateLimitError
  | .internalServer _ => .RobloxInternalServerError
  | .unexpected _ => .RobloxUnexpectedError
  | .searchTermInappropriate _ => .RobloxSearchTermInappropriateError
  | .searchTermEmpty _ => .RobloxSearchTermEmptyError
  | .searchTermLength _ => .RobloxSearchTermLengthError
  | .searchTermFiltered _ => .RobloxSearchTermFilteredError
  | .searchTermTooShort _ => .RobloxSearchTermTooShort

/-! ## Query-string building shared by the paginated operations

Every paginated operation repeats the same three statements; they are
factored here verbatim.  Python `if limit:` is false exactly for None and
for 0, and `if cursor:` / `if sortOrder:` are false exactly for None and
for the empty string, so the falsy values skip both the validation and the
append. -/

/-- The limit block: `if limit: if limit not in [10, 25, 50, 100]: raise
RobloxBadRequestError(msg) else: url += f"&limit=.."`. -/
def addLimit (url : String) (limit : Option Int) (msg : String) : Except Err String :=
  match limit with
  | none => .ok url
  | some l =>
    if l = 0 then .ok url
    else if l ∈ ([10, 25, 50, 100] : List Int) then .ok (url ++ "&limit=" ++ toString l)
    else .error (.api (.badRequest (Json.str msg)))

/-- The sortOrder block: `if sortOrder: if sortOrder not in ["Asc", "Desc"]:
raise RobloxBadRequestError(msg) else: url += f"&sortOrder=.."`. -/
def addSortOrder (url : String) (sortOrder : Option String) (msg : String) : Except Err String :=
  match sortOrder with
  | none => .ok url
  | some o =>
    if o = "" then .ok url
    else if o ∈ (["Asc", "Desc"] : List String) then .ok (url ++ "&sortOrder=" ++ o)
    else .error (.api (.badRequest (Json.str msg)))

/-- The cursor block: `if cursor: url += f"&cursor=.."` — no validation. -/
def addCursor (url : String) (cursor : Option String) : String :=
  match cursor with
  | none => url
  | some c => if c = "" then url else url ++ "&cursor=" ++ c

/-- The limit validation message used in Users.py and Groups.py. -/
def limitMsgUsers : String := "Limit can only be 10, 25, 50 or 100"

/-- The limit validation message used in Search.py. -/
def limitMsgSearch : String := "Limit can only be 10, 25, 50, or 100"

/-- The sortOrder validation message used in Users.py and Groups.py. -/
def sortOrderMsg : String := "Sort order can only be either \x27Asc\x27 or \x27Desc\x27"

/-- An HTTP response as seen by the client: status code and decoded JSON
body. -/
structure HttpResponse where
  status : Int
  body : Json

/-- The expression `response.json()[\x27errors\x27][0][\x27message\x27]`
of the shared 400 handler. -/
def pyErrorsMessage (body : Json) : Except Err Json := do
  let errs ← pyIndexStr body "errors"
  let e0 ← pyIndexNat errs 0
  pyIndexStr e0 "message"

/-- The expression `int(response.json()[\x27errors\x27][0][\x27code\x27])`
of the search 400 handlers. -/
def pyErrorsCode (body : Json) : Except Err Int := do
  let errs ← pyIndexStr body "errors"
  let e0 ← pyIndexNat errs 0
  let c ← pyIndexStr e0 "code"
  pyInt c

end BloxPy

namespace BloxPy.Search

/-! ## BloxPy/Search.py -/

/-- Dataclass UserSearchResult; every field is filled by item.get(key,
None), hence optional. -/
structure UserSearchResult where
  previousUsernames : Option Json
  hasVerifiedBadge : Option Json
  id : Option Json
  name : Option Json
  displayName : Option Json

/-- Dataclass UserSearchResults. -/
structure UserSearchResults where
  previousPageCursor : Option Json
  nextPageCursor : Option Json
  data : List UserSearchResult

/-- The URL built by search_users before the request: keyword base plus
validated limit plus cursor. -/
def search_users_url (keyword : String) (limit : Option Int) (cursor : Option String) :
    Except Err String :=
  match addLimit ("https://users.roblox.com/v1/users/search?keyword=" ++ keyword)
      limit limitMsgSearch with
  | .error e => .error e
  | .ok u => .ok (addCursor u cursor)

/-- The 200 branch of search_users: map the data array elementwise. -/
def search_users_parse (search_data : Json) : Except Err UserSearchResults := do
  let prev ← pyGetOpt search_data "previousPageCursor"
  let next ← pyGetOpt search_data "nextPageCursor"
  let dataJ ← pyIndexStr search_data "data"
  let items ← pyIter dataJ
  let ds ← items.mapM fun item => do
    let previousUsernames ← pyGetOpt item "previousUsernames"
    let hasVerifiedBadge ← pyGetOpt item "hasVerifiedBadge"
    let idv ← pyGetOpt item "id"
    let namev ← pyGetOpt item "name"
    let displayName ← pyGetOpt item "displayName"
    pure (⟨previousUsernames, hasVerifiedBadge, idv, namev, displayName⟩ : UserSearchResult)
  pure ⟨prev, next, ds⟩

/-- The status-code chain of search_users.  The function body ends after
the `if status == 200` block, so any other status falls through and the
function returns None — modelled as `.ok none`. -/
def search_users_dispatch (status : Int) (body : Json) :
    Except Err (Option UserSearchResults) :=
  if status = 400 then
    match pyErrorsCode body with
    | .error e => .error e
    | .ok code =>
      match pyErrorsMessage body with
      | .error e => .error e
      | .ok msg =>
        if code = 5 then .error (.api (.searchTermFiltered msg))
        else if code = 6 then .error (.api (.searchTermTooShort msg))
        else .error (.api (.badRequest msg))
  else if status = 429 then .error (.api (.rateLimited (Json.str "Too many requests.")))
  else if status = 200 then
    match search_users_parse body with
    | .ok r => .ok (some r)
    | .error e => .error e
  else .ok none

/-- search_users end to end against a network oracle. -/
def search_users_run (keyword : String) (limit : Option Int) (cursor : Option String)
    (net : String → HttpResponse) : Except Err (Option UserSearchResults) :=
  match search_users_url keyword limit cursor with
  | .error e => .error e
  | .ok url => search_users_dispatch (net url).status (net url).body

/-- Dataclass GroupSearchResult. -/
structure GroupSearchResult where
  id : Option Json
  name : Option Json
  description : Option Json
  memberCount : Option Json
  previousName : Option Json
  publicEntryAllowed : Option Json
  created : Option Json
  updated : Option Json
  hasVerifiedBadge : Option Json

/-- Dataclass GroupSearchResults. -/
structure GroupSearchResults where
  previousPageCursor : Option Json
  nextPageCursor : Option Json
  data : List GroupSearchResult

/-- The URL built by search_groups: keyword base, then the
prioritizeExactMatch flag, then validated limit, then cursor. -/
def search_groups_url (keyword : String) (limit : Option Int) (cursor : Option String)
    (prioritizeExactMatch : Bool) : Except Err String :=
  let base := "https://groups.roblox.com/v1/groups/search?keyword=" ++ keyword
  let base := if prioritizeExactMatch then base ++ "&prioritizeExactMatch=true" else base
  match addLimit base limit limitMsgSearch with
  | .error e => .error e
  | .ok u => .ok (addCursor u cursor)

/-- The 200 branch of search_groups. -/
def search_groups_parse (search_data : Json) : Except Err GroupSearchResults := do
  let prev ← pyGetOpt search_data "previousPageCursor"
  let next ← pyGetOpt search_data "nextPageCursor"
  let dataJ ← pyIndexStr search_data "data"
  let items ← pyIter dataJ
  let ds ← items.mapM fun item => do
    let idv ← pyGetOpt item "id"
    let namev ← pyGetOpt item "name"
    let description ← pyGetOpt item "description"
    let memberCount ← pyGetOpt item "memberCount"
    let previousName ← pyGetOpt item "previousName"
    let publicEntryAllowed ← pyGetOpt item "publicEntryAllowed"
    let created ← pyGetOpt item "created"
    let updated ← pyGetOpt item "updated"
    let hasVerifiedBadge ← pyGetOpt item "hasVerifiedBadge"
    pure (⟨idv, namev, description, memberCount, previousName, publicEntryAllowed,
           created, updated, hasVerifiedBadge⟩ : GroupSearchResult)
  pure ⟨prev, next, ds⟩

/-- The status-code chain of search_groups, which — unlike search_users —
ends in an explicit `else: raise RobloxUnexpectedError(..)`. -/
def search_groups_dispatch (status : Int) (body : Json) :
    Except Err (Option GroupSearchResults) :=
  if status = 400 then
    match pyErrorsCode body with
    | .error e => .error e
    | .ok code =>
      match pyErrorsMessage body with
      | .error e => .error e
      | .ok msg =>
        if code = 2 then .error (.api (.searchTermInappropriate msg))
        else if code = 3 then .error (.api (.searchTermEmpty msg))
        else if code = 4 then .error (.api (.searchTermLength msg))
        else .error (.api (.badRequest msg))
  else if status = 429 then .error (.api (.rateLimited (Json.str "Too many requests.")))
  else if status = 200 then
    match search_groups_parse body with
    | .ok r => .ok (some r)
    | .error e => .error e
  else
    .error (.api (.unexpected (Json.str ("Unexpected HTTP status code: " ++ toString status))))

/-- search_groups end to end against a network oracle. -/
def search_groups_run (keyword : String) (limit : Option Int) (cursor : Option String)
    (prioritizeExactMatch : Bool) (net : String → HttpResponse) :
    Except Err (Option GroupSearchResults) :=
  match search_groups_url keyword limit cursor prioritizeExactMatch with
  | .error e => .error e
  | .ok url => search_groups_dispatch (net url).status (net url).body

end BloxPy.Search

namespace BloxPy.Users

/-! ## BloxPy/Users.py -/

/-- Dataclass AvatarScales. -/
structure AvatarScales where
  height : Option Json
  width : Option Json
  head : Option Json
  depth : Option Json
  proportion : Option Json
  bodyType : Option Json

/-- Dataclass AvatarBodyColors. -/
structure AvatarBodyColors where
  headColorId : Option Json
  torsoColorId : Option Json
  rightArmColorId : Option Json
  leftArmColorId : Option Json
  rightLegColorId : Option Json
  leftLegColorId : Option Json

/-- Dataclass AvatarAssetType. -/
structure AvatarAssetType where
  id : Option Json
  name : Option Json

/-- Dataclass AvatarAssetsMeta. -/
structure AvatarAssetsMeta where
  order : Option Json
  puffiness : Option Json
  version : Option Json

/-- Dataclass AvatarAssets. -/
structure AvatarAssets where
  id : Option Json
  name : Option Json
  assetType : AvatarAssetType
  currentVersionId : Option Json
  meta : AvatarAssetsMeta

/-- Dataclass AvatarEmotes. -/
structure AvatarEmotes where
  assetId : Option Json
  assetName : Option Json
  position : Option Json

/-- Dataclass AvatarData; assets and emotes are set to None when the
corresponding array is falsy, hence the extra Option layer. -/
structure AvatarData where
  scales : AvatarScales
  playerAvatarType : Option Json
  bodyColors : AvatarBodyColors
  assets : Option (List AvatarAssets)
  defaultShirtApplied : Option Json
  defaultPantApplied : Option Json
  emotes : Option (List AvatarEmotes)

/-- Dataclass BadgeStatistics (Users.py copy); fields come from bracket
indexing, so they are plain values. -/
structure BadgeStatistics where
  pastDayAwardedCount : Json
  awardedCount : Json
  winRatePercentage : Json

/-- Dataclass BadgeAwardingUniverse (Users.py copy). -/
structure BadgeAwardingUniverse where
  id : Json
  name : Json
  rootPlaceId : Json

/-- Dataclass BadgeData (Users.py copy). -/
structure BadgeData where
  id : Option Json
  name : Option Json
  description : Option Json
  displayName : Option Json
  displayDescription : Option Json
  enabled : Option Json
  iconImageId : Option Json
  displayIconImageId : Option Json
  created : Option Json
  updated : Option Json
  statistics : Option BadgeStatistics
  awardingUniverse : Option BadgeAwardingUniverse

/-- Dataclass BadgesResultData. -/
structure BadgesResultData where
  previousPageCursor : Option Json
  nextPageCursor : Option Json
  data : List BadgeData

/-- Dataclass FollowerData. -/
structure FollowerData where
  isOnline : Option Json
  presenceType : Option Json
  isDeleted : Option Json
  friendFrequentScore : Option Json
  friendFrequentRank : Option Json
  hasVerifiedBadge : Option Json
  description : Option Json
  created : Option Json
  isBanned : Option Json
  externalAppDisplayName : Option Json
  id : Option Json
  name : Option Json
  displayName : Option Json

/-- Dataclass FollowersResultData. -/
structure FollowersResultData where
  previousPageCursor : Option Json
  nextPageCursor : Option Json
  data : List FollowerData

/-- Dataclass FollowingData. -/
structure FollowingData where
  isOnline : Option Json
  presenceType : Option Json
  isDeleted : Option Json
  friendFrequentScore : Option Json
  friendFrequentRank : Option Json
  hasVerifiedBadge : Option Json
  description : Option Json
  created : Option Json
  isBanned : Option Json
  externalAppDisplayName : Option Json
  id : Option Json
  name : Option Json
  displayName : Option Json

/-- Dataclass FollowingsResultData. -/
structure FollowingsResultData where
  previousPageCursor : Option Json
  nextPageCursor : Option Json
  data : List FollowingData

/-- Dataclass FriendData. -/
structure FriendData where
  isOnline : Option Json
  presenceType : Option Json
  isDeleted : Option Json
  friendFrequentScore : Option Json
  friendFrequentRank : Option Json
  hasVerifiedBadge : Option Json
  description : Option Json
  created : Option Json
  isBanned : Option Json
  externalAppDisplayName : Option Json
  id : Option Json
  name : Option Json
  displayName : Option Json

/-- Dataclass GameCreatorData (Users.py copy). -/
structure GameCreatorData where
  id : Option Json
  type : Option Json
  name : Option Json

/-- Dataclass GameRootPlaceData (Users.py copy). -/
structure GameRootPlaceData where
  id : Option Json
  type : Option Json
  name : Option Json

/-- Dataclass GameData (Users.py copy). -/
structure GameData where
  id : Option Json
  name : Option Json
  description : Option Json
  creator : Option GameCreatorData
  rootPlace : Option GameRootPlaceData
  created : Option Json
  updated : Option Json
  placeVisits : Option Json

/-- Dataclass GamesResultData (Users.py copy). -/
structure GamesResultData where
  previousPageCursor : Option Json
  nextPageCursor : Option Json
  data : List GameData

/-- Dataclass UserData (the record part; its methods are the free
functions below). -/
structure UserData where
  description : Option Json
  created : Option Json
  isBanned : Option Json
  externalAppDisplayName : Option Json
  hasVerifiedBadge : Option Json
  id : Option Json
  name : Option Json
  displayName : Option Json

/-- The 200 branch of UserData.avatar.  The first statement reads
data[&quot;scales&quot;] by bracket indexing; the second statement is
`scales = AvatarScales(height=scales.get(..), ..)`, whose right-hand side
reads the local name `scales` that this very statement is assigning, so it
is still unbound and CPython raises UnboundLocalError on every evaluation.
The rest of the branch (bodyColors, assets, emotes, the final AvatarData
construction) is unreachable. -/
def avatar_parse (data : Json) : Except Err AvatarData := do
  let _scales_data ← pyIndexStr data "scales"
  .error (.unboundLocal "scales")

/-- The status-code chain of UserData.avatar. -/
def avatar_dispatch (status : Int) (body : Json) : Except Err AvatarData :=
  if status = 404 then .error (.api (.notFound (Json.str "User not found.")))
  else if status = 400 then .error (.api (.badRequest (Json.str "Bad request.")))
  else if status = 401 then
    .error (.api (.unauthorized (Json.str "Unauthorized. Authentication required.")))
  else if status = 429 then
    .error (.api (.rateLimited (Json.str "Rate limit exceeded. Please try again later.")))
  else if status = 500 then .error (.api (.internalServer (Json.str "Internal server error.")))
  else if status ≠ 200 then
    .error (.api (.unexpected (Json.str ("Unexpected HTTP status code: " ++ toString status))))
  else avatar_parse body

/-- The base URL of UserData.badges; note it carries no query component,
so there is no ? in it for the parameter blocks to extend. -/
def badges_base (uid : Int) : String :=
  "https://badges.roblox.com/v1/users/" ++ toString uid ++ "/badges"

/-- The URL built by UserData.badges before the request. -/
def badges_url (uid : Int) (limit : Option Int) (cursor sortOrder : Option String) :
    Except Err String :=
  match addLimit (badges_base uid) limit limitMsgUsers with
  | .error e => .error e
  | .ok u1 =>
    match addSortOrder u1 sortOrder sortOrderMsg with
    | .error e => .error e
    | .ok u2 => .ok (addCursor u2 cursor)

/-- The 200 branch of UserData.badges, transcribed with its defects: the
statistics and awardingUniverse chains index the data LIST with the string
keys statistics/awardingUniverse, and the per-item comprehension reads all
fields from the top-level search_data instead of from item. -/
def badges_parse (search_data : Json) : Except Err BadgesResultData := do
  let dataJ ← pyIndexStr search_data "data"
  let statistics_data ← pyIndexStr dataJ "statistics"
  let statistics ←
    if truthy statistics_data then do
      let j1 ← pyIndexStr search_data "data"
      let j2 ← pyIndexStr j1 "statistics"
      let pastDay ← pyIndexStr j2 "pastDayAwardedCount"
      let j3 ← pyIndexStr search_data "data"
      let j4 ← pyIndexStr j3 "statistics"
      let awarded ← pyIndexStr j4 "awardedCount"
      let j5 ← pyIndexStr search_data "data"
      let j6 ← pyIndexStr j5 "statistics"
      let winRate ← pyIndexStr j6 "winRatePercentage"
      pure (some (⟨pastDay, awarded, winRate⟩ : BadgeStatistics))
    else pure none
  let dataJ2 ← pyIndexStr search_data "data"
  let awardingUniverse_data ← pyIndexStr dataJ2 "awardingUniverse"
  let awardingUniverse ←
    if truthy awardingUniverse_data then do
      let j1 ← pyIndexStr search_data "data"
      let j2 ← pyIndexStr j1 "awardingUniverse"
      let idv ← pyIndexStr j2 "id"
      let j3 ← pyIndexStr search_data "data"
      let j4 ← pyIndexStr j3 "awardingUniverse"
      let namev ← pyIndexStr j4 "name"
      let j5 ← pyIndexStr search_data "data"
      let j6 ← pyIndexStr j5 "awardingUniverse"
      let rootPlaceId ← pyIndexStr j6 "rootPlaceId"
      pure (some (⟨idv, namev, rootPlaceId⟩ : BadgeAwardingUniverse))
    else pure none
  let prev ← pyGetOpt search_data "previousPageCursor"
  let next ← pyGetOpt search_data "nextPageCursor"
  let dataJ3 ← pyIndexStr search_data "data"
  let items ← pyIter dataJ3
  let ds ← items.mapM fun _item => do
    let idv ← pyGetOpt search_data "id"
    let namev ← pyGetOpt search_data "name"
    let description ← pyGetOpt search_data "description"
    let displayName ← pyGetOpt search_data "displayName"
    let displayDescription ← pyGetOpt search_data "displayDescription"
    let enabled ← pyGetOpt search_data "enabled"
    let iconImageId ← pyGetOpt search_data "iconImageId"
    let displayIconImageId ← pyGetOpt search_data "displayIconImageId"
    let created ← pyGetOpt search_data "created"
    let updated ← pyGetOpt search_data "updated"
    pure (⟨idv, namev, description, displayName, displayDescription, enabled,
           iconImageId, displayIconImageId, created, updated,
           statistics, awardingUniverse⟩ : BadgeData)
  pure ⟨prev, next, ds⟩

/-- The status-code chain of UserData.badges; statuses other than 400, 429
and 200 fall off the end of the function, returning None. -/
def badges_dispatch (status : Int) (body : Json) : Except Err (Option BadgesResultData) :=
  if status = 400 then
    match pyErrorsMessage body with
    | .ok msg => .error (.api (.badRequest msg))
    | .error e => .error e
  else if status = 429 then .error (.api (.rateLimited (Json.str "Too many requests.")))
  else if status = 200 then
    match badges_parse body with
    | .ok r => .ok (some r)
    | .error e => .error e
  else .ok none

/-- UserData.badges end to end against a network oracle. -/
def badges_run (uid : Int) (limit : Option Int) (cursor sortOrder : Option String)
    (net : String → HttpResponse) : Except Err (Option BadgesResultData) :=
  match badges_url uid limit cursor sortOrder with
  | .error e => .error e
  | .ok url => badges_dispatch (net url).status (net url).body

/-- The base URL of UserData.followers; no query component. -/
def followers_base (uid : Int) : String :=
  "https://friends.roblox.com/v1/users/" ++ toString uid ++ "/followers"

/-- The URL built by UserData.followers before the request. -/
def followers_url (uid : Int) (limit : Option Int) (cursor sortOrder : Option String) :
    Except Err String :=
  match addLimit (followers_base uid) limit limitMsgUsers with
  | .error e => .error e
  | .ok u1 =>
    match addSortOrder u1 sortOrder sortOrderMsg with
    | .error e => .error e
    | .ok u2 => .ok (addCursor u2 cursor)

/-- The 200 branch of UserData.followers: cursors by key-presence lookup,
then one FollowerData per element of the data array, each field from that
element. -/
def followers_parse (search_data : Json) : Except Err FollowersResultData := do
  let prev ← pyGetOpt search_data "previousPageCursor"
  let next ← pyGetOpt search_data "nextPageCursor"
  let dataJ ← pyIndexStr search_data "data"
  let items ← pyIter dataJ
  let ds ← items.mapM fun item => do
    let isOnline ← pyGetOpt item "isOnline"
    let presenceType ← pyGetOpt item "presenceType"
    let isDeleted ← pyGetOpt item "isDeleted"
    let friendFrequentScore ← pyGetOpt item "friendFrequentScore"
    let friendFrequentRank ← pyGetOpt item "friendFrequentRank"
    let hasVerifiedBadge ← pyGetOpt item "hasVerifiedBadge"
    let description ← pyGetOpt item "description"
    let created ← pyGetOpt item "created"
    let isBanned ← pyGetOpt item "isBanned"
    let externalAppDisplayName ← pyGetOpt item "externalAppDisplayName"
    let idv ← pyGetOpt item "id"
    let namev ← pyGetOpt item "name"
    let displayName ← pyGetOpt item "displayName"
    pure (⟨isOnline, presenceType, isDeleted, friendFrequentScore, friendFrequentRank,
           hasVerifiedBadge, description, created, isBanned, externalAppDisplayName,
           idv, namev, displayName⟩ : FollowerData)
  pure ⟨prev, next, ds⟩

/-- The status-code chain of UserData.followers; statuses other than 400,
429 and 200 fall off the end of the function, returning None. -/
def followers_dispatch (status : Int) (body : Json) :
    Except Err (Option FollowersResultData) :=
  if status = 400 then
    match pyErrorsMessage body with
    | .ok msg => .error (.api (.badRequest msg))
    | .error e => .error e
  else if status = 429 then .error (.api (.rateLimited (Json.str "Too many requests.")))
  else if status = 200 then
    match followers_parse body with
    | .ok r => .ok (some r)
    | .error e => .error e
  else .ok none

/-- UserData.followers end to end against a network oracle. -/
def followers_run (uid : Int) (limit : Option Int) (cursor sortOrder : Option String)
    (net : String → HttpResponse) : Except Err (Option FollowersResultData) :=
  match followers_url uid limit cursor sortOrder with
  | .error e => .error e
  | .ok url => followers_dispatch (net url).status (net url).body

/-- The base URL of UserData.followings; no query component. -/
def followings_base (uid : Int) : String :=
  "https://friends.roblox.com/v1/users/" ++ toString uid ++ "/followings"

/-- The URL built by UserData.followings before the request. -/
def followings_url (uid : Int) (limit : Option Int) (cursor sortOrder : Option String) :
    Except Err String :=
  match addLimit (followings_base uid) limit limitMsgUsers with
  | .error e => .error e
  | .ok u1 =>
    match addSortOrder u1 sortOrder sortOrderMsg with
    | .error e => .error e
    | .ok u2 => .ok (addCursor u2 cursor)

/-- The 200 branch of UserData.followings. -/
def followings_parse (search_data : Json) : Except Err FollowingsResultData := do
  let prev ← pyGetOpt search_data "previousPageCursor"
  let next ← pyGetOpt search_data "nextPageCursor"
  let dataJ ← pyIndexStr search_data "data"
  let items ← pyIter dataJ
  let ds ← items.mapM fun item => do
    let isOnline ← pyGetOpt item "isOnline"
    let presenceType ← pyGetOpt item "presenceType"
    let isDeleted ← pyGetOpt item "isDeleted"
    let friendFrequentScore ← pyGetOpt item "friendFrequentScore"
    let friendFrequentRank ← pyGetOpt item "friendFrequentRank"
    let hasVerifiedBadge ← pyGetOpt item "hasVerifiedBadge"
    let description ← pyGetOpt item "description"
    let created ← pyGetOpt item "created"
    let isBanned ← pyGetOpt item "isBanned"
    let externalAppDisplayName ← pyGetOpt item "externalAppDisplayName"
    let idv ← pyGetOpt item "id"
    let namev ← pyGetOpt item "name"
    let displayName ← pyGetOpt item "displayName"
    pure (⟨isOnline, presenceType, isDeleted, friendFrequentScore, friendFrequentRank,
           hasVerifiedBadge, description, created, isBanned, externalAppDisplayName,
           idv, namev, displayName⟩ : FollowingData)
  pure ⟨prev, next, ds⟩

/-- The status-code chain of UserData.followings. -/
def followings_dispatch (status : Int) (body : Json) :
    Except Err (Option FollowingsResultData) :=
  if status = 400 then
    match pyErrorsMessage body with
    | .ok msg => .error (.api (.badRequest msg))
    | .error e => .error e
  else if status = 429 then .error (.api (.rateLimited (Json.str "Too many requests.")))
  else if status = 200 then
    match followings_parse body with
    | .ok r => .ok (some r)
    | .error e => .error e
  else .ok none

/-- UserData.followings end to end against a network oracle. -/
def followings_run (uid : Int) (limit : Option Int) (cursor sortOrder : Option String)
    (net : String → HttpResponse) : Except Err (Option FollowingsResultData) :=
  match followings_url uid limit cursor sortOrder with
  | .error e => .error e
  | .ok url => followings_dispatch (net url).status (net url).body

/-- The 200 branch of UserData.friends: a plain list, no page record. -/
def friends_parse (search_data : Json) : Except Err (List FriendData) := do
  let dataJ ← pyIndexStr search_data "data"
  let items ← pyIter dataJ
  items.mapM fun item => do
    let isOnline ← pyGetOpt item "isOnline"
    let presenceType ← pyGetOpt item "presenceType"
    let isDeleted ← pyGetOpt item "isDeleted"
    let friendFrequentScore ← pyGetOpt item "friendFrequentScore"
    let friendFrequentRank ← pyGetOpt item "friendFrequentRank"
    let hasVerifiedBadge ← pyGetOpt item "hasVerifiedBadge"
    let description ← pyGetOpt item "description"
    let created ← pyGetOpt item "created"
    let isBanned ← pyGetOpt item "isBanned"
    let externalAppDisplayName ← pyGetOpt item "externalAppDisplayName"
    let idv ← pyGetOpt item "id"
    let namev ← pyGetOpt item "name"
    let displayName ← pyGetOpt item "displayName"
    pure (⟨isOnline, presenceType, isDeleted, friendFrequentScore, friendFrequentRank,
           hasVerifiedBadge, description, created, isBanned, externalAppDisplayName,
           idv, namev, displayName⟩ : FriendData)

/-- The status-code chain of UserData.friends. -/
def friends_dispatch (status : Int) (body : Json) : Except Err (Option (List FriendData)) :=
  if status = 400 then
    match pyErrorsMessage body with
    | .ok msg => .error (.api (.badRequest msg))
    | .error e => .error e
  else if status = 429 then .error (.api (.rateLimited (Json.str "Too many requests.")))
  else if status = 200 then
    match friends_parse body with
    | .ok r => .ok (some r)
    | .error e => .error e
  else .ok none

/-- The base URL of UserData.games, which does carry a query component. -/
def games_base (uid : Int) : String :=
  "https://games.roblox.com/v2/users/" ++ toString uid ++ "/games?accessFilter=2"

/-- The URL built by UserData.games before the request. -/
def games_url (uid : Int) (limit : Option Int) (cursor sortOrder : Option String) :
    Except Err String :=
  match addLimit (games_base uid) limit limitMsgUsers with
  | .error e => .error e
  | .ok u1 =>
    match addSortOrder u1 sortOrder sortOrderMsg with
    | .error e => .error e
    | .ok u2 => .ok (addCursor u2 cursor)

/-- The 200 branch of UserData.games, transcribed with its defects: it
calls .get on search_data[&quot;data&quot;] (a list in an API response,
raising AttributeError), and the shared creator/rootPlace values are built
from top-level fields rather than per item. -/
def games_parse (search_data : Json) : Except Err GamesResultData := do
  let dataJ ← pyIndexStr search_data "data"
  let creator_data ← pyGetOpt dataJ "creator"
  let creator ←
    if truthyOpt creator_data then do
      let j1 ← pyIndexStr search_data "data"
      let idv ← pyGetOpt j1 "id"
      let j2 ← pyIndexStr search_data "data"
      let tyv ← pyGetOpt j2 "type"
      let j3 ← pyIndexStr search_data "data"
      let namev ← pyGetOpt j3 "name"
      pure (some (⟨idv, tyv, namev⟩ : GameCreatorData))
    else pure none
  let dataJ2 ← pyIndexStr search_data "data"
  let rootPlace_data ← pyGetOpt dataJ2 "rootPlace"
  let rootPlace ←
    if truthyOpt rootPlace_data then do
      let j1 ← pyIndexStr search_data "data"
      let idv ← pyGetOpt j1 "id"
      let j2 ← pyIndexStr search_data "data"
      let tyv ← pyGetOpt j2 "type"
      let j3 ← pyIndexStr search_data "data"
      let namev ← pyGetOpt j3 "name"
      pure (some (⟨idv, tyv, namev⟩ : GameRootPlaceData))
    else pure none
  let prev ← pyGetOpt search_data "previousPageCursor"
  let next ← pyGetOpt search_data "nextPageCursor"
  let dataJ3 ← pyIndexStr search_data "data"
  let items ← pyIter dataJ3
  let ds ← items.mapM fun item => do
    let idv ← pyGetOpt item "id"
    let namev ← pyGetOpt item "name"
    let description ← pyGetOpt item "description"
    let created ← pyGetOpt item "created"
    let updated ← pyGetOpt item "updated"
    let placeVisits ← pyGetOpt item "placeVisits"
    pure (⟨idv, namev, description, creator, rootPlace, created, updated,
           placeVisits⟩ : GameData)
  pure ⟨prev, next, ds⟩

/-- The status-code chain of UserData.games. -/
def games_dispatch (status : Int) (body : Json) : Except Err (Option GamesResultData) :=
  if status = 400 then
    match pyErrorsMessage body with
    | .ok msg => .error (.api (.badRequest msg))
    | .error e => .error e
  else if status = 429 then .error (.api (.rateLimited (Json.str "Too many requests.")))
  else if status = 200 then
    match games_parse body with
    | .ok r => .ok (some r)
    | .error e => .error e
  else .ok none

/-- UserData.games end to end against a network oracle. -/
def games_run (uid : Int) (limit : Option Int) (cursor sortOrder : Option String)
    (net : String → HttpResponse) : Except Err (Option GamesResultData) :=
  match games_url uid limit cursor sortOrder with
  | .error e => .error e
  | .ok url => games_dispatch (net url).status (net url).body

/-- The 200 branch of get_user: every field via key-presence lookup. -/
def get_user_parse (user_data : Json) : Except Err UserData := do
  let description ← pyGetOpt user_data "description"
  let created ← pyGetOpt user_data "created"
  let isBanned ← pyGetOpt user_data "isBanned"
  let externalAppDisplayName ← pyGetOpt user_data "externalAppDisplayName"
  let hasVerifiedBadge ← pyGetOpt user_data "hasVerifiedBadge"
  let idv ← pyGetOpt user_data "id"
  let namev ← pyGetOpt user_data "name"
  let displayName ← pyGetOpt user_data "displayName"
  pure ⟨description, created, isBanned, externalAppDisplayName, hasVerifiedBadge,
        idv, namev, displayName⟩

/-- The status-code chain of get_user. -/
def get_user_dispatch (status : Int) (body : Json) : Except Err UserData :=
  if status = 404 then .error (.api (.notFound (Json.str "User not found.")))
  else if status = 400 then .error (.api (.badRequest (Json.str "Bad request.")))
  else if status = 401 then
    .error (.api (.unauthorized (Json.str "Unauthorized. Authentication required.")))
  else if status = 429 then
    .error (.api (.rateLimited (Json.str "Rate limit exceeded. Please try again later.")))
  else if status = 500 then .error (.api (.internalServer (Json.str "Internal server error.")))
  else if status ≠ 200 then
    .error (.api (.unexpected (Json.str ("Unexpected HTTP status code: " ++ toString status))))
  else get_user_parse body

end BloxPy.Users

namespace BloxPy.Groups

/-! ## BloxPy/Groups.py -/

/-- Dataclass OwnerData. -/
structure OwnerData where
  buildersClubMembershipType : Option Json
  hasVerifiedBadge : Option Json
  userId : Option Json
  username : Option Json
  displayName : Option Json

/-- Dataclass PosterData. -/
structure PosterData where
  buildersClubMembershipType : Option Json
  hasVerifiedBadge : Option Json
  userId : Option Json
  username : Option Json
  displayName : Option Json

/-- Dataclass ShoutData. -/
structure ShoutData where
  body : Option Json
  poster : Option PosterData
  created : Option Json
  updated : Option Json

/-- Dataclass RoleData. -/
structure RoleData where
  id : Option Json
  name : Option Json
  description : Option Json
  rank : Option Json
  memberCount : Option Json

/-- Dataclass GameCreatorData (Groups.py copy). -/
structure GameCreatorData where
  id : Option Json
  type : Option Json
  name : Option Json

/-- Dataclass GameRootPlaceData (Groups.py copy). -/
structure GameRootPlaceData where
  id : Option Json
  type : Option Json
  name : Option Json

/-- Dataclass GameData (Groups.py copy). -/
structure GameData where
  id : Option Json
  name : Option Json
  description : Option Json
  creator : Option GameCreatorData
  rootPlace : Option GameRootPlaceData
  created : Option Json
  updated : Option Json
  placeVisits : Option Json

/-- Dataclass GamesResultData (Groups.py copy). -/
structure GamesResultData where
  previousPageCursor : Option Json
  nextPageCursor : Option Json
  data : List GameData

/-- Dataclass GroupData (the record part). -/
structure GroupData where
  id : Option Json
  name : Option Json
  description : Option Json
  owner : Option OwnerData
  shout : Option ShoutData
  memberCount : Option Json
  isBuildersClubOnly : Option Json
  publicEntryAllowed : Option Json
  isLocked : Option Json
  hasVerifiedBadge : Option Json

/-- The 200 branch of GroupData.roles: roles_data.get(&quot;roles&quot;, [])
then per-role key-presence lookups. -/
def roles_parse (roles_data : Json) : Except Err (List RoleData) := do
  let rolesJ ← pyGetD roles_data "roles" (Json.arr [])
  let items ← pyIter rolesJ
  items.mapM fun role => do
    let idv ← pyGetOpt role "id"
    let namev ← pyGetOpt role "name"
    let description ← pyGetOpt role "description"
    let rank ← pyGetOpt role "rank"
    let memberCount ← pyGetOpt role "memberCount"
    pure (⟨idv, namev, description, rank, memberCount⟩ : RoleData)

/-- The status-code chain of GroupData.roles. -/
def roles_dispatch (status : Int) (body : Json) : Except Err (List RoleData) :=
  if status = 404 then .error (.api (.notFound (Json.str "Group not found.")))
  else if status = 400 then .error (.api (.badRequest (Json.str "Bad request.")))
  else if status = 401 then
    .error (.api (.unauthorized (Json.str "Unauthorized. Authentication required.")))
  else if status = 429 then
    .error (.api (.rateLimited (Json.str "Rate limit exceeded. Please try again later.")))
  else if status = 500 then .error (.api (.internalServer (Json.str "Internal server error.")))
  else if status ≠ 200 then
    .error (.api (.unexpected (Json.str ("Unexpected HTTP status code: " ++ toString status))))
  else roles_parse body

/-- The base URL of GroupData.games, which carries a query component. -/
def games_base (gid : Int) : String :=
  "https://games.roblox.com/v2/groups/" ++ toString gid ++ "/games?accessFilter=2"

/-- The URL built by GroupData.games before the request. -/
def games_url (gid : Int) (limit : Option Int) (cursor sortOrder : Option String) :
    Except Err String :=
  match addLimit (games_base gid) limit limitMsgUsers with
  | .error e => .error e
  | .ok u1 =>
    match addSortOrder u1 sortOrder sortOrderMsg with
    | .error e => .error e
    | .ok u2 => .ok (addCursor u2 cursor)

/-- The 200 branch of GroupData.games; same shape (and same defects) as
UserData.games. -/
def games_parse (search_data : Json) : Except Err GamesResultData := do
  let dataJ ← pyIndexStr search_data "data"
  let creator_data ← pyGetOpt dataJ "creator"
  let creator ←
    if truthyOpt creator_data then do
      let j1 ← pyIndexStr search_data "data"
      let idv ← pyGetOpt j1 "id"
      let j2 ← pyIndexStr search_data "data"
      let tyv ← pyGetOpt j2 "type"
      let j3 ← pyIndexStr search_data "data"
      let namev ← pyGetOpt j3 "name"
      pure (some (⟨idv, tyv, namev⟩ : GameCreatorData))
    else pure none
  let dataJ2 ← pyIndexStr search_data "data"
  let rootPlace_data ← pyGetOpt dataJ2 "rootPlace"
  let rootPlace ←
    if truthyOpt rootPlace_data then do
      let j1 ← pyIndexStr search_data "data"
      let idv ← pyGetOpt j1 "id"
      let j2 ← pyIndexStr search_data "data"
      let tyv ← pyGetOpt j2 "type"
      let j3 ← pyIndexStr search_data "data"
      let namev ← pyGetOpt j3 "name"
      pure (some (⟨idv, tyv, namev⟩ : GameRootPlaceData))
    else pure none
  let prev ← pyGetOpt search_data "previousPageCursor"
  let next ← pyGetOpt search_data "nextPageCursor"
  let dataJ3 ← pyIndexStr search_data "data"
  let items ← pyIter dataJ3
  let ds ← items.mapM fun item => do
    let idv ← pyGetOpt item "id"
    let namev ← pyGetOpt item "name"
    let description ← pyGetOpt item "description"
    let created ← pyGetOpt item "created"
    let updated ← pyGetOpt item "updated"
    let placeVisits ← pyGetOpt item "placeVisits"
    pure (⟨idv, namev, description, creator, rootPlace, created, updated,
           placeVisits⟩ : GameData)
  pure ⟨prev, next, ds⟩

/-- The status-code chain of GroupData.games. -/
def games_dispatch (status : Int) (body : Json) : Except Err (Option GamesResultData) :=
  if status = 400 then
    match pyErrorsMessage body with
    | .ok msg => .error (.api (.badRequest msg))
    | .error e => .error e
  else if status = 429 then .error (.api (.rateLimited (Json.str "Too many requests.")))
  else if status = 200 then
    match games_parse body with
    | .ok r => .ok (some r)
    | .error e => .error e
  else .ok none

/-- GroupData.games end to end against a network oracle. -/
def games_run (gid : Int) (limit : Option Int) (cursor sortOrder : Option String)
    (net : String → HttpResponse) : Except Err (Option GamesResultData) :=
  match games_url gid limit cursor sortOrder with
  | .error e => .error e
  | .ok url => games_dispatch (net url).status (net url).body

/-- The 200 branch of get_group, including the nested owner/shout/poster
construction guarded by truthiness of the fetched sub-objects. -/
def get_group_parse (group_data : Json) : Except Err GroupData := do
  let owner_data ← pyGetOpt group_data "owner"
  let owner ←
    match owner_data with
    | some od =>
      if truthy od then do
        let buildersClubMembershipType ← pyGetOpt od "buildersClubMembershipType"
        let hasVerifiedBadge ← pyGetOpt od "hasVerifiedBadge"
        let userId ← pyGetOpt od "userId"
        let username ← pyGetOpt od "username"
        let displayName ← pyGetOpt od "displayName"
        pure (some (⟨buildersClubMembershipType, hasVerifiedBadge, userId, username,
                     displayName⟩ : OwnerData))
      else pure none
    | none => pure none
  let shout_data ← pyGetOpt group_data "shout"
  let shout ←
    match shout_data with
    | some sd =>
      if truthy sd then do
        let poster_data ← pyGetOpt sd "poster"
        let poster ←
          match poster_data with
          | some pd =>
            if truthy pd then do
              let buildersClubMembershipType ← pyGetOpt pd "buildersClubMembershipType"
              let hasVerifiedBadge ← pyGetOpt pd "hasVerifiedBadge"
              let userId ← pyGetOpt pd "userId"
              let username ← pyGetOpt pd "username"
              let displayName ← pyGetOpt pd "displayName"
              pure (some (⟨buildersClubMembershipType, hasVerifiedBadge, userId,
                           username, displayName⟩ : PosterData))
            else pure none
          | none => pure none
        let bodyv ← pyGetOpt sd "body"
        let created ← pyGetOpt sd "created"
        let updated ← pyGetOpt sd "updated"
        pure (some (⟨bodyv, poster, created, updated⟩ : ShoutData))
      else pure none
    | none => pure none
  let idv ← pyGetOpt group_data "id"
  let namev ← pyGetOpt group_data "name"
  let description ← pyGetOpt group_data "description"
  let memberCount ← pyGetOpt group_data "memberCount"
  let isBuildersClubOnly ← pyGetOpt group_data "isBuildersClubOnly"
  let publicEntryAllowed ← pyGetOpt group_data "publicEntryAllowed"
  let isLocked ← pyGetOpt group_data "isLocked"
  let hasVerifiedBadge ← pyGetOpt group_data "hasVerifiedBadge"
  pure ⟨idv, namev, description, owner, shout, memberCount, isBuildersClubOnly,
        publicEntryAllowed, isLocked, hasVerifiedBadge⟩

/-- The status-code chain of get_group. -/
def get_group_dispatch (status : Int) (body : Json) : Except Err GroupData :=
  if status = 404 then .error (.api (.notFound (Json.str "Group not found.")))
  else if status = 400 then .error (.api (.badRequest (Json.str "Bad request.")))
  else if status = 401 then
    .error (.api (.unauthorized (Json.str "Unauthorized. Authentication required.")))
  else if status = 429 then
    .error (.api (.rateLimited (Json.str "Rate limit exceeded. Please try again later.")))
  else if status = 500 then .error (.api (.internalServer (Json.str "Internal server error.")))
  else if status ≠ 200 then
    .error (.api (.unexpected (Json.str ("Unexpected HTTP status code: " ++ toString status))))
  else get_group_parse body

end BloxPy.Groups

namespace BloxPy.Badges

/-! ## BloxPy/Badges.py -/

/-- Dataclass BadgeStatistics (Badges.py copy); fields come from bracket
indexing. -/
structure BadgeStatistics where
  pastDayAwardedCount : Json
  awardedCount : Json
  winRatePercentage : Json

/-- Dataclass BadgeAwardingUniverse (Badges.py copy). -/
structure BadgeAwardingUniverse where
  id : Json
  name : Json
  rootPlaceId : Json

/-- Dataclass BadgeData (Badges.py copy). -/
structure BadgeData where
  id : Option Json
  name : Option Json
  description : Option Json
  displayName : Option Json
  displayDescription : Option Json
  enabled : Option Json
  iconImageId : Option Json
  displayIconImageId : Option Json
  created : Option Json
  updated : Option Json
  statistics : Option BadgeStatistics
  awardingUniverse : Option BadgeAwardingUniverse

/-- The 200 branch of get_badge.  The statistics and awardingUniverse
sub-objects are read with bracket indexing (KeyError when absent), while
the flat fields use key-presence lookup. -/
def get_badge_parse (badge_data : Json) : Except Err BadgeData := do
  let statistics_data ← pyIndexStr badge_data "statistics"
  let statistics ←
    if truthy statistics_data then do
      let j1 ← pyIndexStr badge_data "statistics"
      let pastDay ← pyIndexStr j1 "pastDayAwardedCount"
      let j2 ← pyIndexStr badge_data "statistics"
      let awarded ← pyIndexStr j2 "awardedCount"
      let j3 ← pyIndexStr badge_data "statistics"
      let winRate ← pyIndexStr j3 "winRatePercentage"
      pure (some (⟨pastDay, awarded, winRate⟩ : BadgeStatistics))
    else pure none
  let awardingUniverse_data ← pyIndexStr badge_data "awardingUniverse"
  let awardingUniverse ←
    if truthy awardingUniverse_data then do
      let j1 ← pyIndexStr badge_data "awardingUniverse"
      let idv ← pyIndexStr j1 "id"
      let j2 ← pyIndexStr badge_data "awardingUniverse"
      let namev ← pyIndexStr j2 "name"
      let j3 ← pyIndexStr badge_data "awardingUniverse"
      let rootPlaceId ← pyIndexStr j3 "rootPlaceId"
      pure (some (⟨idv, namev, rootPlaceId⟩ : BadgeAwardingUniverse))
    else pure none
  let idv ← pyGetOpt badge_data "id"
  let namev ← pyGetOpt badge_data "name"
  let description ← pyGetOpt badge_data "description"
  let displayName ← pyGetOpt badge_data "displayName"
  let displayDescription ← pyGetOpt badge_data "displayDescription"
  let enabled ← pyGetOpt badge_data "enabled"
  let iconImageId ← pyGetOpt badge_data "iconImageId"
  let displayIconImageId ← pyGetOpt badge_data "displayIconImageId"
  let created ← pyGetOpt badge_data "created"
  let updated ← pyGetOpt badge_data "updated"
  pure ⟨idv, namev, description, displayName, displayDescription, enabled,
        iconImageId, displayIconImageId, created, updated, statistics, awardingUniverse⟩

/-- The status-code chain of get_badge: only 404 is special-cased; every
other non-200 status, including 400, 401, 429 and 500, raises
RobloxUnexpectedError. -/
def get_badge_dispatch (status : Int) (body : Json) : Except Err BadgeData :=
  if status = 404 then
    .error (.api (.notFound (Json.str "Badge is invalid or does not exist.")))
  else if status ≠ 200 then
    .error (.api (.unexpected (Json.str ("Unexpected HTTP status code: " ++ toString status))))
  else get_badge_parse body

end BloxPy.Badges

namespace BloxPy

/-! ## Supporting lemmas -/

/-- A network oracle used for concrete evaluations: always 200 with an
empty JSON object. -/
def netStub : String → HttpResponse := fun _ => ⟨200, .obj []⟩

/-- A network oracle answering 200 with a body whose data array is empty. -/
def netEmptyData : String → HttpResponse := fun _ => ⟨200, .obj [("data", .arr [])]⟩

/-- A 400 response body with the given numeric sub-code and message, the
shape both search endpoints receive. -/
def mkErrBody (code : Int) (msg : String) : Json :=
  .obj [("errors", .arr [.obj [("code", .num code), ("message", .str msg)]])]

theorem addLimit_zero (u m : String) : addLimit u (some 0) m = addLimit u none m := rfl

theorem addSortOrder_empty (u m : String) :
    addSortOrder u (some "") m = addSortOrder u none m := rfl

theorem addCursor_empty (u : String) : addCursor u (some "") = addCursor u none := rfl

theorem addLimit_invalid (u m : String) (l : Int) (h0 : l ≠ 0)
    (h : l ∉ ([10, 25, 50, 100] : List Int)) :
    addLimit u (some l) m = .error (.api (.badRequest (Json.str m))) := by
  simp only [addLimit, if_neg h0, if_neg h]

theorem addLimit_valid (u m : String) (l : Int) (h : l ∈ ([10, 25, 50, 100] : List Int)) :
    addLimit u (some l) m = .ok (u ++ "&limit=" ++ toString l) := by
  fin_cases h <;> rfl

theorem addSortOrder_invalid (u m : String) (o : String) (h0 : o ≠ "")
    (h : o ∉ (["Asc", "Desc"] : List String)) :
    addSortOrder u (some o) m = .error (.api (.badRequest (Json.str m))) := by
  simp only [addSortOrder, if_neg h0, if_neg h]

theorem addSortOrder_valid (u m : String) (o : String)
    (h : o ∈ (["Asc", "Desc"] : List String)) :
    addSortOrder u (some o) m = .ok (u ++ "&sortOrder=" ++ o) := by
  fin_cases h <;> rfl

theorem addCursor_some (u c : String) (hc : c ≠ "") :
    addCursor u (some c) = u ++ "&cursor=" ++ c := by
  simp only [addCursor, if_neg hc]

/-- Every character produced by the fueled decimal digit loop is a digit
character of a value below the base, or comes from the accumulator. -/
theorem toDigitsCore_chars (fuel : Nat) :
    ∀ (n : Nat) (ds : List Char) (c : Char),
      c ∈ Nat.toDigitsCore 10 fuel n ds →
      c ∈ ds ∨ ∃ m : Nat, m < 10 ∧ c = Nat.digitChar m := by
  induction fuel with
  | zero => intro n ds c h; exact Or.inl h
  | succ fuel ih =>
    intro n ds c h
    rw [Nat.toDigitsCore] at h
    by_cases h0 : n / 10 = 0
    · rw [if_pos h0] at h
      rcases List.mem_cons.mp h with rfl | hds
      · exact Or.inr ⟨n % 10, Nat.mod_lt n (by omega), rfl⟩
      · exact Or.inl hds
    · rw [if_neg h0] at h
      rcases ih (n / 10) _ c h with hds | hd
      · rcases List.mem_cons.mp hds with rfl | hds2
        · exact Or.inr ⟨n % 10, Nat.mod_lt n (by omega), rfl⟩
        · exact Or.inl hds2
      · exact Or.inr hd

theorem digitChar_ne_qmark (m : Nat) (hm : m < 10) : Nat.digitChar m ≠ '?' := by
  interval_cases m <;> decide

theorem qmark_not_mem_natRepr (n : Nat) : '?' ∉ (Nat.repr n).data := by
  intro hmem
  have h : ('?' : Char) ∈ Nat.toDigitsCore 10 (n + 1) n [] := hmem
  rcases toDigitsCore_chars (n + 1) n [] '?' h with hnil | ⟨m, hm, hq⟩
  · exact List.not_mem_nil _ hnil
  · exact digitChar_ne_qmark m hm hq.symm

theorem qmark_not_mem_intToString (i : Int) : '?' ∉ (toString i).data := by
  cases i with
  | ofNat m => exact qmark_not_mem_natRepr m
  | negSucc m =>
    intro hmem
    have h : ('?' : Char) ∈ ("-" ++ Nat.repr (m + 1)).data := hmem
    rw [String.data_append] at h
    rcases List.mem_append.mp h with hdash | hrep
    · simp at hdash
    · exact qmark_not_mem_natRepr (m + 1) hrep

/-! ## Claims -/

/-- C8: every library-defined exception kind is an instance of the single
base class RobloxApiError; the five search-term errors descend from it via
RobloxSearchTermError, which derives from RobloxApiError directly and is a
sibling of RobloxBadRequestError, neither being a subclass of the other.
A handler catching RobloxApiError therefore catches every error kind any
public operation raises. -/
theorem claim_C8_exception_hierarchy :
    (∀ e : RobloxError, isSubclassOf (clsOf e) ExcCls.RobloxApiError = true) ∧
    superclassOf ExcCls.RobloxSearchTermError = some ExcCls.RobloxApiError ∧
    superclassOf ExcCls.RobloxSearchTermInappropriateError
      = some ExcCls.RobloxSearchTermError ∧
    superclassOf ExcCls.RobloxSearchTermEmptyError = some ExcCls.RobloxSearchTermError ∧
    superclassOf ExcCls.RobloxSearchTermLengthError = some ExcCls.RobloxSearchTermError ∧
    superclassOf ExcCls.RobloxSearchTermFilteredError = some ExcCls.RobloxSearchTermError ∧
    superclassOf ExcCls.RobloxSearchTermTooShort = some ExcCls.RobloxSearchTermError ∧
    isSubclassOf ExcCls.RobloxSearchTermError ExcCls.RobloxBadRequestError = false ∧
    isSubclassOf ExcCls.RobloxBadRequestError ExcCls.RobloxSearchTermError = false := by
  refine ⟨fun e => ?_, rfl, rfl, rfl, rfl, rfl, rfl, rfl, rfl⟩
  cases e <;> rfl

/-- C9: falsy parameter values are treated as omitted, not invalid — for
every paginated operation, limit 0, sortOrder empty string and cursor
empty string build exactly the URL (and raise exactly the error) of the
call with the parameter absent; in particular limit 0 bypasses the limit
validation and appends no limit parameter. -/
theorem claim_C9_falsy_treated_as_omitted :
    ∀ (uid : Int) (kw : String) (l : Option Int) (c s : Option String) (pe : Bool),
      (Users.badges_url uid (some 0) c s = Users.badges_url uid none c s ∧
       Users.badges_url uid l (some "") s = Users.badges_url uid l none s ∧
       Users.badges_url uid l c (some "") = Users.badges_url uid l c none) ∧
      (Users.followers_url uid (some 0) c s = Users.followers_url uid none c s ∧
       Users.followers_url uid l (some "") s = Users.followers_url uid l none s ∧
       Users.followers_url uid l c (some "") = Users.followers_url uid l c none) ∧
      (Users.followings_url uid (some 0) c s = Users.followings_url uid none c s ∧
       Users.followings_url uid l (some "") s = Users.followings_url uid l none s ∧
       Users.followings_url uid l c (some "") = Users.followings_url uid l c none) ∧
      (Users.games_url uid (some 0) c s = Users.games_url uid none c s ∧
       Users.games_url uid l (some "") s = Users.games_url uid l none s ∧
       Users.games_url uid l c (some "") = Users.games_url uid l c none) ∧
      (Groups.games_url uid (some 0) c s = Groups.games_url uid none c s ∧
       Groups.games_url uid l (some "") s = Groups.games_url uid l none s ∧
       Groups.games_url uid l c (some "") = Groups.games_url uid l c none) ∧
      (Search.search_users_url kw (some 0) c = Search.search_users_url kw none c ∧
       Search.search_users_url kw l (some "") = Search.search_users_url kw l none) ∧
      (Search.search_groups_url kw (some 0) c pe = Search.search_groups_url kw none c pe ∧
       Search.search_groups_url kw l (some "") pe = Search.search_groups_url kw l none pe) := by
  intro uid kw l c s pe
  refine ⟨⟨?_, ?_, ?_⟩, ⟨?_, ?_, ?_⟩, ⟨?_, ?_, ?_⟩, ⟨?_, ?_, ?_⟩, ⟨?_, ?_, ?_⟩,
    ⟨?_, ?_⟩, ⟨?_, ?_⟩⟩ <;>
    simp only [Users.badges_url, Users.followers_url, Users.followings_url,
      Users.games_url, Groups.games_url, Search.search_users_url,
      Search.search_groups_url, addLimit_zero, addSortOrder_empty, addCursor_empty]

/-- C3 (code bug): the JSON-to-record mapping of UserData.avatar never
completes on an HTTP 200 response — for every possible body the 200 branch
raises (an UnboundLocalError on the name scales when the body is a dict
with a scales key, a KeyError or TypeError before that otherwise), so it
never returns the record the claim promises. -/
theorem claim_C3_avatar_200_always_raises :
    ∀ body : Json, exceptIsOk (Users.avatar_dispatch 200 body) = false := by
  intro body
  show exceptIsOk (Users.avatar_parse body) = false
  unfold Users.avatar_parse
  cases h : pyIndexStr body "scales" <;>
    simp [h, exceptIsOk, Bind.bind, Except.bind]

/-- A fully populated fixture body for the user badges endpoint: both
cursors, and one data element carrying every documented badge field. -/
def badgesFixture : Json :=
  .obj [("previousPageCursor", .null),
        ("nextPageCursor", .str "cursor2"),
        ("data", .arr [
          .obj [("id", .num 276), ("name", .str "Badge"),
                ("description", .str "d"), ("displayName", .str "Badge"),
                ("displayDescription", .str "d"), ("enabled", .bool true),
                ("iconImageId", .num 42), ("displayIconImageId", .num 42),
                ("created", .str "2019-01-01"), ("updated", .str "2019-01-02"),
                ("statistics", .obj [("pastDayAwardedCount", .num 1),
                                     ("awardedCount", .num 2),
                                     ("winRatePercentage", .num 3)]),
                ("awardingUniverse", .obj [("id", .num 5), ("name", .str "u"),
                                           ("rootPlaceId", .num 6)])]])]

/-- C6 (code bug): on a well-formed 200 body the UserData.badges mapping
does not build one record per data element — it crashes up front with a
TypeError, because it evaluates the chain data[&quot;statistics&quot;] on
the data LIST; and its per-item comprehension reads every field from the
top-level body rather than from the item. -/
theorem claim_C6_badges_fixture_crashes :
    Users.badges_dispatch 200 badgesFixture
      = .error (.typeError "list indices must be integers") := by
  rfl

/-- C1 counterexample: followers with the provided, out-of-range limit 0
raises nothing and performs the network request (here answered with an
empty 200 page), contradicting the claim that every provided out-of-range
limit fails with a bad-request error before any network call. -/
theorem claim_C1_counterexample :
    Users.followers_run 1 (some 0) none none netEmptyData = .ok (some ⟨none, none, []⟩) := by
  rfl

/-- C2 counterexample: search_users receiving a 400 body with sub-code 2
(term-inappropriate in the table) raises the generic bad-request error,
not the matching search-term error — only sub-codes 5 and 6 are mapped in
search_users. -/
theorem claim_C2_counterexample :
    Search.search_users_dispatch 400 (mkErrBody 2 "Search term not appropriate")
      = .error (.api (.badRequest (Json.str "Search term not appropriate"))) := by
  rfl

/-- C4 counterexample: search_users receiving an unmapped status (503)
raises nothing and returns None — the claim that every operation raises
the generic unexpected-status error for unmapped statuses fails. -/
theorem claim_C4_counterexample :
    Search.search_users_dispatch 503 (.obj []) = .ok none := by
  rfl

/-- C5 counterexample: get_badge maps status 400 to the generic
unexpected-status error, not to BadRequest — only 404 is special-cased in
get_badge. -/
theorem claim_C5_counterexample :
    Badges.get_badge_dispatch 400 (.obj [])
      = .error (.api (.unexpected (Json.str "Unexpected HTTP status code: 400"))) := by
  rfl

/-- The generic unexpected-status error, carrying the raw status code in
its message. -/
def unexpectedErr (s : Int) : Err :=
  .api (.unexpected (Json.str ("Unexpected HTTP status code: " ++ toString s)))

/-- C2 as amended: each search endpoint maps only part of the sub-code
table — search_users maps 5 to term-filtered and 6 to term-too-short,
search_groups maps 2 to term-inappropriate, 3 to term-empty and 4 to
term-length-invalid — and each falls back to the generic bad-request error
for every other sub-code; in particular search_users with sub-code 6
raises SearchTermTooShort, not generic BadRequest. -/
theorem claim_C2_amended :
    ∀ (msg : String) (code : Int),
      Search.search_users_dispatch 400 (mkErrBody 5 msg)
        = .error (.api (.searchTermFiltered (Json.str msg))) ∧
      Search.search_users_dispatch 400 (mkErrBody 6 msg)
        = .error (.api (.searchTermTooShort (Json.str msg))) ∧
      (code ≠ 5 → code ≠ 6 →
        Search.search_users_dispatch 400 (mkErrBody code msg)
          = .error (.api (.badRequest (Json.str msg)))) ∧
      Search.search_groups_dispatch 400 (mkErrBody 2 msg)
        = .error (.api (.searchTermInappropriate (Json.str msg))) ∧
      Search.search_groups_dispatch 400 (mkErrBody 3 msg)
        = .error (.api (.searchTermEmpty (Json.str msg))) ∧
      Search.search_groups_dispatch 400 (mkErrBody 4 msg)
        = .error (.api (.searchTermLength (Json.str msg))) ∧
      (code ≠ 2 → code ≠ 3 → code ≠ 4 →
        Search.search_groups_dispatch 400 (mkErrBody code msg)
          = .error (.api (.badRequest (Json.str msg)))) := by
  intro msg code
  refine ⟨rfl, rfl, fun h5 h6 => ?_, rfl, rfl, rfl, fun h2 h3 h4 => ?_⟩
  · have hd : Search.search_users_dispatch 400 (mkErrBody code msg)
        = (if code = 5 then .error (.api (.searchTermFiltered (Json.str msg)))
           else if code = 6 then .error (.api (.searchTermTooShort (Json.str msg)))
           else .error (.api (.badRequest (Json.str msg)))) := rfl
    rw [hd, if_neg h5, if_neg h6]
  · have hd : Search.search_groups_dispatch 400 (mkErrBody code msg)
        = (if code = 2 then .error (.api (.searchTermInappropriate (Json.str msg)))
           else if code = 3 then .error (.api (.searchTermEmpty (Json.str msg)))
           else if code = 4 then .error (.api (.searchTermLength (Json.str msg)))
           else .error (.api (.badRequest (Json.str msg)))) := rfl
    rw [hd, if_neg h2, if_neg h3, if_neg h4]

/-- C4 as amended, with each operation quantified over the statuses ITS
own chain leaves unmapped: get_user, get_group, avatar and group roles
raise the generic unexpected-status error carrying the raw code for every
status outside their mapped set {200, 400, 401, 404, 429, 500}; get_badge
raises it for every status other than 404 and 200; search_groups raises
it for every status other than 400, 429 and 200; and for every status
other than 400, 429 and 200 the remaining operations (user badges,
followers, followings, friends, user games, group games and search_users)
instead fall off the end of their status chain and return no value (None)
without raising — including at 401, 404 and 500. -/
theorem claim_C4_amended :
    ∀ (s : Int) (b : Json),
      (s ∉ ([200, 400, 401, 404, 429, 500] : List Int) →
        Users.get_user_dispatch s b = .error (unexpectedErr s) ∧
        Groups.get_group_dispatch s b = .error (unexpectedErr s) ∧
        Users.avatar_dispatch s b = .error (unexpectedErr s) ∧
        Groups.roles_dispatch s b = .error (unexpectedErr s)) ∧
      (s ≠ 404 → s ≠ 200 →
        Badges.get_badge_dispatch s b = .error (unexpectedErr s)) ∧
      (s ≠ 400 → s ≠ 429 → s ≠ 200 →
        Search.search_groups_dispatch s b = .error (unexpectedErr s) ∧
        Users.badges_dispatch s b = .ok none ∧
        Users.followers_dispatch s b = .ok none ∧
        Users.followings_dispatch s b = .ok none ∧
        Users.friends_dispatch s b = .ok none ∧
        Users.games_dispatch s b = .ok none ∧
        Groups.games_dispatch s b = .ok none ∧
        Search.search_users_dispatch s b = .ok none) := by
  intro s b
  refine ⟨fun h => ?_, fun h404 h200 => ?_, fun h400 h429 h200 => ?_⟩
  · simp only [List.mem_cons, List.mem_singleton, not_or] at h
    obtain ⟨h200, h400, h401, h404, h429, h500⟩ := h
    refine ⟨?_, ?_, ?_, ?_⟩ <;>
      simp [Users.get_user_dispatch, Groups.get_group_dispatch,
        Users.avatar_dispatch, Groups.roles_dispatch,
        unexpectedErr, h200, h400, h401, h404, h429, h500]
  · simp [Badges.get_badge_dispatch, unexpectedErr, h404, h200]
  · refine ⟨?_, ?_, ?_, ?_, ?_, ?_, ?_, ?_⟩ <;>
      simp [Search.search_groups_dispatch, Users.badges_dispatch,
        Users.followers_dispatch, Users.followings_dispatch,
        Users.friends_dispatch, Users.games_dispatch, Groups.games_dispatch,
        Search.search_users_dispatch, unexpectedErr, h400, h429, h200]

/-- C4 witness at concrete statuses: 503 for the full chains, 400 for
get_badge (unmapped there), and 404 for followers (unmapped there, so it
returns None where get_user would raise NotFound). -/
theorem claim_C4_witness :
    Users.get_user_dispatch 503 (.obj []) = .error (unexpectedErr 503) ∧
    Badges.get_badge_dispatch 400 (.obj []) = .error (unexpectedErr 400) ∧
    Users.followers_dispatch 404 (.obj []) = .ok none ∧
    Search.search_users_dispatch 503 (.obj []) = .ok none := by
  refine ⟨?_, ?_, ?_, ?_⟩
  · exact ((claim_C4_amended 503 (.obj [])).1 (by decide)).1
  · exact (claim_C4_amended 400 (.obj [])).2.1 (by decide) (by decide)
  · exact ((claim_C4_amended 404 (.obj [])).2.2 (by decide) (by decide)
      (by decide)).2.2.1
  · exact ((claim_C4_amended 503 (.obj [])).2.2 (by decide) (by decide)
      (by decide)).2.2.2.2.2.2.2

/-- C5 as amended: for get_user and get_group the claimed mapping holds in
full — 400 to BadRequest, 401 to Unauthorized, 404 to NotFound, 429 to
RateLimited, 500 to ServerError and any other non-200 status (such as 204
or 503) to the unexpected-status error; get_badge, however, maps only 404
to NotFound and sends every other non-200 status, including 400, 401, 429
and 500, to the unexpected-status error. -/
theorem claim_C5_amended :
    ∀ (b : Json) (s : Int),
      (Users.get_user_dispatch 400 b
          = .error (.api (.badRequest (Json.str "Bad request."))) ∧
       Users.get_user_dispatch 401 b
          = .error (.api (.unauthorized (Json.str "Unauthorized. Authentication required."))) ∧
       Users.get_user_dispatch 404 b
          = .error (.api (.notFound (Json.str "User not found."))) ∧
       Users.get_user_dispatch 429 b
          = .error (.api (.rateLimited (Json.str "Rate limit exceeded. Please try again later."))) ∧
       Users.get_user_dispatch 500 b
          = .error (.api (.internalServer (Json.str "Internal server error."))) ∧
       (s ∉ ([200, 400, 401, 404, 429, 500] : List Int) →
         Users.get_user_dispatch s b = .error (unexpectedErr s))) ∧
      (Groups.get_group_dispatch 400 b
          = .error (.api (.badRequest (Json.str "Bad request."))) ∧
       Groups.get_group_dispatch 401 b
          = .error (.api (.unauthorized (Json.str "Unauthorized. Authentication required."))) ∧
       Groups.get_group_dispatch 404 b
          = .error (.api (.notFound (Json.str "Group not found."))) ∧
       Groups.get_group_dispatch 429 b
          = .error (.api (.rateLimited (Json.str "Rate limit exceeded. Please try again later."))) ∧
       Groups.get_group_dispatch 500 b
          = .error (.api (.internalServer (Json.str "Internal server error."))) ∧
       (s ∉ ([200, 400, 401, 404, 429, 500] : List Int) →
         Groups.get_group_dispatch s b = .error (unexpectedErr s))) ∧
      (Badges.get_badge_dispatch 404 b
          = .error (.api (.notFound (Json.str "Badge is invalid or does not exist."))) ∧
       (s ≠ 404 → s ≠ 200 →
         Badges.get_badge_dispatch s b = .error (unexpectedErr s))) := by
  intro b s
  refine ⟨⟨rfl, rfl, rfl, rfl, rfl, fun h => ?_⟩,
          ⟨rfl, rfl, rfl, rfl, rfl, fun h => ?_⟩,
          ⟨rfl, fun h404 h200 => ?_⟩⟩
  · simp only [List.mem_cons, List.mem_singleton, not_or] at h
    obtain ⟨h200, h400, h401, h404, h429, h500⟩ := h
    simp [Users.get_user_dispatch, unexpectedErr, h200, h400, h401, h404, h429, h500]
  · simp only [List.mem_cons, List.mem_singleton, not_or] at h
    obtain ⟨h200, h400, h401, h404, h429, h500⟩ := h
    simp [Groups.get_group_dispatch, unexpectedErr, h200, h400, h401, h404, h429, h500]
  · simp [Badges.get_badge_dispatch, unexpectedErr, h404, h200]

/-- C5 witness at the concrete unmapped statuses 204 and 503, and at 400
for get_badge. -/
theorem claim_C5_witness :
    Users.get_user_dispatch 204 (.obj []) = .error (unexpectedErr 204) ∧
    Groups.get_group_dispatch 503 (.obj []) = .error (unexpectedErr 503) ∧
    Badges.get_badge_dispatch 401 (.obj []) = .error (unexpectedErr 401) := by
  refine ⟨((claim_C5_amended (.obj []) 204).1.2.2.2.2.2 (by decide)),
          ((claim_C5_amended (.obj []) 503).2.1.2.2.2.2.2 (by decide)),
          ((claim_C5_amended (.obj []) 401).2.2.2 (by decide) (by decide))⟩

/-- C2 witness: concrete instantiations discharging the sub-code
hypotheses (code 7 for search_users, code 6 for search_groups). -/
theorem claim_C2_witness :
    Search.search_users_dispatch 400 (mkErrBody 6 "too short")
      = .error (.api (.searchTermTooShort (Json.str "too short"))) ∧
    Search.search_users_dispatch 400 (mkErrBody 7 "weird")
      = .error (.api (.badRequest (Json.str "weird"))) ∧
    Search.search_groups_dispatch 400 (mkErrBody 6 "too short")
      = .error (.api (.badRequest (Json.str "too short"))) := by
  refine ⟨(claim_C2_amended "too short" 7).2.1, ?_, ?_⟩
  · exact (claim_C2_amended "weird" 7).2.2.1 (by decide) (by decide)
  · exact (claim_C2_amended "too short" 6).2.2.2.2.2.2 (by decide) (by decide) (by decide)

/-- C1 as amended: truthiness gates the validation, so the fail-fast
guarantee holds for every provided NONZERO limit and NON-EMPTY sortOrder —
such an out-of-range value raises the bad-request error identically for
every network oracle, hence before any network call — while limit 0 and
the empty sortOrder are treated as omitted (claim C9); and for every
in-range value the built query string carries exactly that value. -/
theorem claim_C1_amended :
    ∀ (uid : Int) (kw : String) (l : Int) (o : String) (c s : Option String)
      (pe : Bool) (net : String → HttpResponse),
      (l ≠ 0 → l ∉ ([10, 25, 50, 100] : List Int) →
        Users.badges_run uid (some l) c s net
          = .error (.api (.badRequest (Json.str limitMsgUsers))) ∧
        Users.followers_run uid (some l) c s net
          = .error (.api (.badRequest (Json.str limitMsgUsers))) ∧
        Users.followings_run uid (some l) c s net
          = .error (.api (.badRequest (Json.str limitMsgUsers))) ∧
        Users.games_run uid (some l) c s net
          = .error (.api (.badRequest (Json.str limitMsgUsers))) ∧
        Groups.games_run uid (some l) c s net
          = .error (.api (.badRequest (Json.str limitMsgUsers))) ∧
        Search.search_users_run kw (some l) c net
          = .error (.api (.badRequest (Json.str limitMsgSearch))) ∧
        Search.search_groups_run kw (some l) c pe net
          = .error (.api (.badRequest (Json.str limitMsgSearch)))) ∧
      (l ∈ ([10, 25, 50, 100] : List Int) →
        Users.badges_url uid (some l) none none
          = .ok (Users.badges_base uid ++ "&limit=" ++ toString l) ∧
        Users.followers_url uid (some l) none none
          = .ok (Users.followers_base uid ++ "&limit=" ++ toString l) ∧
        Users.followings_url uid (some l) none none
          = .ok (Users.followings_base uid ++ "&limit=" ++ toString l) ∧
        Users.games_url uid (some l) none none
          = .ok (Users.games_base uid ++ "&limit=" ++ toString l) ∧
        Groups.games_url uid (some l) none none
          = .ok (Groups.games_base uid ++ "&limit=" ++ toString l) ∧
        Search.search_users_url kw (some l) none
          = .ok ("https://users.roblox.com/v1/users/search?keyword=" ++ kw
                 ++ "&limit=" ++ toString l) ∧
        Search.search_groups_url kw (some l) none false
          = .ok ("https://groups.roblox.com/v1/groups/search?keyword=" ++ kw
                 ++ "&limit=" ++ toString l)) ∧
      (o ≠ "" → o ∉ (["Asc", "Desc"] : List String) →
        Users.badges_run uid none c (some o) net
          = .error (.api (.badRequest (Json.str sortOrderMsg))) ∧
        Users.followers_run uid none c (some o) net
          = .error (.api (.badRequest (Json.str sortOrderMsg))) ∧
        Users.followings_run uid none c (some o) net
          = .error (.api (.badRequest (Json.str sortOrderMsg))) ∧
        Users.games_run uid none c (some o) net
          = .error (.api (.badRequest (Json.str sortOrderMsg))) ∧
        Groups.games_run uid none c (some o) net
          = .error (.api (.badRequest (Json.str sortOrderMsg)))) ∧
      (o ∈ (["Asc", "Desc"] : List String) →
        Users.badges_url uid none none (some o)
          = .ok (Users.badges_base uid ++ "&sortOrder=" ++ o) ∧
        Users.followers_url uid none none (some o)
          = .ok (Users.followers_base uid ++ "&sortOrder=" ++ o) ∧
        Users.followings_url uid none none (some o)
          = .ok (Users.followings_base uid ++ "&sortOrder=" ++ o) ∧
        Users.games_url uid none none (some o)
          = .ok (Users.games_base uid ++ "&sortOrder=" ++ o) ∧
        Groups.games_url uid none none (some o)
          = .ok (Groups.games_base uid ++ "&sortOrder=" ++ o)) := by
  intro uid kw l o c s pe net
  refine ⟨fun h0 hl => ⟨?_, ?_, ?_, ?_, ?_, ?_, ?_⟩,
          fun hl => ⟨?_, ?_, ?_, ?_, ?_, ?_, ?_⟩,
          fun h0 ho => ⟨?_, ?_, ?_, ?_, ?_⟩,
          fun ho => ⟨?_, ?_, ?_, ?_, ?_⟩⟩
  · unfold Users.badges_run Users.badges_url
    rw [addLimit_invalid _ _ l h0 hl]
  · unfold Users.followers_run Users.followers_url
    rw [addLimit_invalid _ _ l h0 hl]
  · unfold Users.followings_run Users.followings_url
    rw [addLimit_invalid _ _ l h0 hl]
  · unfold Users.games_run Users.games_url
    rw [addLimit_invalid _ _ l h0 hl]
  · unfold Groups.games_run Groups.games_url
    rw [addLimit_invalid _ _ l h0 hl]
  · unfold Search.search_users_run Search.search_users_url
    rw [addLimit_invalid _ _ l h0 hl]
  · unfold Search.search_groups_run Search.search_groups_url
    simp only [addLimit_invalid _ _ l h0 hl]
  · unfold Users.badges_url
    rw [addLimit_valid _ _ l hl]
    try rfl
  · unfold Users.followers_url
    rw [addLimit_valid _ _ l hl]
    try rfl
  · unfold Users.followings_url
    rw [addLimit_valid _ _ l hl]
    try rfl
  · unfold Users.games_url
    rw [addLimit_valid _ _ l hl]
    try rfl
  · unfold Groups.games_url
    rw [addLimit_valid _ _ l hl]
    try rfl
  · unfold Search.search_users_url
    rw [addLimit_valid _ _ l hl]
    try rfl
  · unfold Search.search_groups_url
    simp only [addLimit_valid _ _ l hl]
    try rfl
  · unfold Users.badges_run Users.badges_url
    simp only [addLimit]
    rw [addSortOrder_invalid _ _ o h0 ho]
    try rfl
  · unfold Users.followers_run Users.followers_url
    simp only [addLimit]
    rw [addSortOrder_invalid _ _ o h0 ho]
    try rfl
  · unfold Users.followings_run Users.followings_url
    simp only [addLimit]
    rw [addSortOrder_invalid _ _ o h0 ho]
    try rfl
  · unfold Users.games_run Users.games_url
    simp only [addLimit]
    rw [addSortOrder_invalid _ _ o h0 ho]
    try rfl
  · unfold Groups.games_run Groups.games_url
    simp only [addLimit]
    rw [addSortOrder_invalid _ _ o h0 ho]
    try rfl
  · unfold Users.badges_url
    simp only [addLimit]
    rw [addSortOrder_valid _ _ o ho]
    try rfl
  · unfold Users.followers_url
    simp only [addLimit]
    rw [addSortOrder_valid _ _ o ho]
    try rfl
  · unfold Users.followings_url
    simp only [addLimit]
    rw [addSortOrder_valid _ _ o ho]
    try rfl
  · unfold Users.games_url
    simp only [addLimit]
    rw [addSortOrder_valid _ _ o ho]
    try rfl
  · unfold Groups.games_url
    simp only [addLimit]
    rw [addSortOrder_valid _ _ o ho]
    try rfl

/-- C1 witness: concrete instantiations discharging each hypothesis — an
out-of-range nonzero limit fails fast for any oracle, in-range values land
in the query string, and likewise for sortOrder. -/
theorem claim_C1_witness :
    Users.followers_run 1 (some 7) none none netStub
      = .error (.api (.badRequest (Json.str limitMsgUsers))) ∧
    Users.followers_url 1 (some 10) none none
      = .ok (Users.followers_base 1 ++ "&limit=" ++ toString (10 : Int)) ∧
    Users.followers_run 1 none none (some "asc") netStub
      = .error (.api (.badRequest (Json.str sortOrderMsg))) ∧
    Users.followers_url 1 none none (some "Asc")
      = .ok (Users.followers_base 1 ++ "&sortOrder=" ++ "Asc") := by
  refine ⟨?_, ?_, ?_, ?_⟩
  · exact ((claim_C1_amended 1 "k" 7 "x" none none false netStub).1
      (by decide) (by decide)).2.1
  · exact ((claim_C1_amended 1 "k" 10 "x" none none false netStub).2.1
      (by decide)).2.1
  · exact ((claim_C1_amended 1 "k" 7 "asc" none none false netStub).2.2.1
      (by decide) (by decide)).2.1
  · exact ((claim_C1_amended 1 "k" 7 "Asc" none none false netStub).2.2.2
      (by decide)).2.1

/-- C7: the cursor is never validated — for every paginated operation and
every non-empty cursor string, the call builds exactly the URL of the
cursorless call with the bytes of &amp;cursor= and the cursor appended
(and fails exactly when the cursorless call fails, for the same reason,
so the cursor itself can never cause a pre-flight failure). -/
theorem claim_C7_cursor_forwarded_verbatim :
    ∀ (uid : Int) (kw : String) (l : Option Int) (s : Option String) (pe : Bool)
      (c : String), c ≠ "" →
      Users.badges_url uid l (some c) s
        = Except.map (fun u => u ++ "&cursor=" ++ c) (Users.badges_url uid l none s) ∧
      Users.followers_url uid l (some c) s
        = Except.map (fun u => u ++ "&cursor=" ++ c) (Users.followers_url uid l none s) ∧
      Users.followings_url uid l (some c) s
        = Except.map (fun u => u ++ "&cursor=" ++ c) (Users.followings_url uid l none s) ∧
      Users.games_url uid l (some c) s
        = Except.map (fun u => u ++ "&cursor=" ++ c) (Users.games_url uid l none s) ∧
      Groups.games_url uid l (some c) s
        = Except.map (fun u => u ++ "&cursor=" ++ c) (Groups.games_url uid l none s) ∧
      Search.search_users_url kw l (some c)
        = Except.map (fun u => u ++ "&cursor=" ++ c) (Search.search_users_url kw l none) ∧
      Search.search_groups_url kw l (some c) pe
        = Except.map (fun u => u ++ "&cursor=" ++ c)
            (Search.search_groups_url kw l none pe) := by
  intro uid kw l s pe c hc
  refine ⟨?_, ?_, ?_, ?_, ?_, ?_, ?_⟩
  · unfold Users.badges_url
    cases addLimit (Users.badges_base uid) l limitMsgUsers with
    | error e => rfl
    | ok u1 =>
      cases h2 : addSortOrder u1 s sortOrderMsg <;>
        simp [h2, addCursor, hc, Except.map]
  · unfold Users.followers_url
    cases addLimit (Users.followers_base uid) l limitMsgUsers with
    | error e => rfl
    | ok u1 =>
      cases h2 : addSortOrder u1 s sortOrderMsg <;>
        simp [h2, addCursor, hc, Except.map]
  · unfold Users.followings_url
    cases addLimit (Users.followings_base uid) l limitMsgUsers with
    | error e => rfl
    | ok u1 =>
      cases h2 : addSortOrder u1 s sortOrderMsg <;>
        simp [h2, addCursor, hc, Except.map]
  · unfold Users.games_url
    cases addLimit (Users.games_base uid) l limitMsgUsers with
    | error e => rfl
    | ok u1 =>
      cases h2 : addSortOrder u1 s sortOrderMsg <;>
        simp [h2, addCursor, hc, Except.map]
  · unfold Groups.games_url
    cases addLimit (Groups.games_base uid) l limitMsgUsers with
    | error e => rfl
    | ok u1 =>
      cases h2 : addSortOrder u1 s sortOrderMsg <;>
        simp [h2, addCursor, hc, Except.map]
  · unfold Search.search_users_url
    cases addLimit ("https://users.roblox.com/v1/users/search?keyword=" ++ kw) l
        limitMsgSearch with
    | error e => rfl
    | ok u => simp [addCursor, hc, Except.map]
  · simp only [Search.search_groups_url]
    cases addLimit
        (if pe = true
          then ("https://groups.roblox.com/v1/groups/search?keyword=" ++ kw)
            ++ "&prioritizeExactMatch=true"
          else "https://groups.roblox.com/v1/groups/search?keyword=" ++ kw) l
        limitMsgSearch with
    | error e => rfl
    | ok u => simp [addCursor, hc, Except.map]

/-- C7 witness at a concrete arbitrary cursor token. -/
theorem claim_C7_witness :
    Users.followers_url 1 none (some "tok123") none
      = Except.map (fun u => u ++ "&cursor=" ++ "tok123")
          (Users.followers_url 1 none none none) := by
  exact (claim_C7_cursor_forwarded_verbatim 1 "k" none none false "tok123"
    (by decide)).2.1

theorem qmark_not_mem_append (s t : String) (hs : '?' ∉ s.data) (ht : '?' ∉ t.data) :
    '?' ∉ (s ++ t).data := by
  intro h
  rw [String.data_append] at h
  rcases List.mem_append.mp h with h1 | h2
  · exact hs h1
  · exact ht h2

theorem char_mem_append_left (a : Char) (s t : String) (h : a ∈ s.data) :
    a ∈ (s ++ t).data := by
  rw [String.data_append]
  exact List.mem_append_left _ h

theorem char_mem_append_right (a : Char) (s t : String) (h : a ∈ t.data) :
    a ∈ (s ++ t).data := by
  rw [String.data_append]
  exact List.mem_append_right _ h

theorem qmark_not_mem_badges_base (uid : Int) : '?' ∉ (Users.badges_base uid).data := by
  unfold Users.badges_base
  exact qmark_not_mem_append _ _
    (qmark_not_mem_append _ _ (by decide) (qmark_not_mem_intToString uid)) (by decide)

theorem qmark_not_mem_followers_base (uid : Int) :
    '?' ∉ (Users.followers_base uid).data := by
  unfold Users.followers_base
  exact qmark_not_mem_append _ _
    (qmark_not_mem_append _ _ (by decide) (qmark_not_mem_intToString uid)) (by decide)

theorem qmark_not_mem_followings_base (uid : Int) :
    '?' ∉ (Users.followings_base uid).data := by
  unfold Users.followings_base
  exact qmark_not_mem_append _ _
    (qmark_not_mem_append _ _ (by decide) (qmark_not_mem_intToString uid)) (by decide)

/-- C10: for the paginated endpoints whose base URL has no query component
(user badges, followers, followings), every supplied parameter is joined
with an ampersand, never a question mark: the built URL is exactly the
base plus the ampersand-prefixed parameter, it contains an ampersand, and
(for the client-controlled limit and sortOrder parameters) it contains no
question mark at all. -/
theorem claim_C10_ampersand_joined_params :
    ∀ (uid : Int) (l : Int) (o c : String),
      (l ∈ ([10, 25, 50, 100] : List Int) →
        (Users.badges_url uid (some l) none none
            = .ok (Users.badges_base uid ++ "&limit=" ++ toString l) ∧
         '?' ∉ (Users.badges_base uid ++ "&limit=" ++ toString l).data ∧
         '&' ∈ (Users.badges_base uid ++ "&limit=" ++ toString l).data) ∧
        (Users.followers_url uid (some l) none none
            = .ok (Users.followers_base uid ++ "&limit=" ++ toString l) ∧
         '?' ∉ (Users.followers_base uid ++ "&limit=" ++ toString l).data ∧
         '&' ∈ (Users.followers_base uid ++ "&limit=" ++ toString l).data) ∧
        (Users.followings_url uid (some l) none none
            = .ok (Users.followings_base uid ++ "&limit=" ++ toString l) ∧
         '?' ∉ (Users.followings_base uid ++ "&limit=" ++ toString l).data ∧
         '&' ∈ (Users.followings_base uid ++ "&limit=" ++ toString l).data)) ∧
      (o ∈ (["Asc", "Desc"] : List String) →
        (Users.badges_url uid none none (some o)
            = .ok (Users.badges_base uid ++ "&sortOrder=" ++ o) ∧
         '?' ∉ (Users.badges_base uid ++ "&sortOrder=" ++ o).data ∧
         '&' ∈ (Users.badges_base uid ++ "&sortOrder=" ++ o).data) ∧
        (Users.followers_url uid none none (some o)
            = .ok (Users.followers_base uid ++ "&sortOrder=" ++ o) ∧
         '?' ∉ (Users.followers_base uid ++ "&sortOrder=" ++ o).data ∧
         '&' ∈ (Users.followers_base uid ++ "&sortOrder=" ++ o).data) ∧
        (Users.followings_url uid none none (some o)
            = .ok (Users.followings_base uid ++ "&sortOrder=" ++ o) ∧
         '?' ∉ (Users.followings_base uid ++ "&sortOrder=" ++ o).data ∧
         '&' ∈ (Users.followings_base uid ++ "&sortOrder=" ++ o).data)) ∧
      (c ≠ "" →
        (Users.badges_url uid none (some c) none
            = .ok (Users.badges_base uid ++ "&cursor=" ++ c) ∧
         '?' ∉ (Users.badges_base uid).data ∧
         '&' ∈ (Users.badges_base uid ++ "&cursor=" ++ c).data) ∧
        (Users.followers_url uid none (some c) none
            = .ok (Users.followers_base uid ++ "&cursor=" ++ c) ∧
         '?' ∉ (Users.followers_base uid).data ∧
         '&' ∈ (Users.followers_base uid ++ "&cursor=" ++ c).data) ∧
        (Users.followings_url uid none (some c) none
            = .ok (Users.followings_base uid ++ "&cursor=" ++ c) ∧
         '?' ∉ (Users.followings_base uid).data ∧
         '&' ∈ (Users.followings_base uid ++ "&cursor=" ++ c).data)) := by
  intro uid l o c
  refine ⟨fun hl => ⟨⟨?_, ?_, ?_⟩, ⟨?_, ?_, ?_⟩, ⟨?_, ?_, ?_⟩⟩,
          fun ho => ⟨⟨?_, ?_, ?_⟩, ⟨?_, ?_, ?_⟩, ⟨?_, ?_, ?_⟩⟩,
          fun hc => ⟨⟨?_, ?_, ?_⟩, ⟨?_, ?_, ?_⟩, ⟨?_, ?_, ?_⟩⟩⟩
  · unfold Users.badges_url
    rw [addLimit_valid _ _ l hl]
    try rfl
  · exact qmark_not_mem_append _ _
      (qmark_not_mem_append _ _ (qmark_not_mem_badges_base uid) (by decide))
      (qmark_not_mem_intToString l)
  · exact char_mem_append_left _ _ _ (char_mem_append_right _ _ _ (by decide))
  · unfold Users.followers_url
    rw [addLimit_valid _ _ l hl]
    try rfl
  · exact qmark_not_mem_append _ _
      (qmark_not_mem_append _ _ (qmark_not_mem_followers_base uid) (by decide))
      (qmark_not_mem_intToString l)
  · exact char_mem_append_left _ _ _ (char_mem_append_right _ _ _ (by decide))
  · unfold Users.followings_url
    rw [addLimit_valid _ _ l hl]
    try rfl
  · exact qmark_not_mem_append _ _
      (qmark_not_mem_append _ _ (qmark_not_mem_followings_base uid) (by decide))
      (qmark_not_mem_intToString l)
  · exact char_mem_append_left _ _ _ (char_mem_append_right _ _ _ (by decide))
  · unfold Users.badges_url
    simp only [addLimit]
    rw [addSortOrder_valid _ _ o ho]
    try rfl
  · refine qmark_not_mem_append _ _
      (qmark_not_mem_append _ _ (qmark_not_mem_badges_base uid) (by decide)) ?_
    fin_cases ho <;> decide
  · exact char_mem_append_left _ _ _ (char_mem_append_right _ _ _ (by decide))
  · unfold Users.followers_url
    simp only [addLimit]
    rw [addSortOrder_valid _ _ o ho]
    try rfl
  · refine qmark_not_mem_append _ _
      (qmark_not_mem_append _ _ (qmark_not_mem_followers_base uid) (by decide)) ?_
    fin_cases ho <;> decide
  · exact char_mem_append_left _ _ _ (char_mem_append_right _ _ _ (by decide))
  · unfold Users.followings_url
    simp only [addLimit]
    rw [addSortOrder_valid _ _ o ho]
    try rfl
  · refine qmark_not_mem_append _ _
      (qmark_not_mem_append _ _ (qmark_not_mem_followings_base uid) (by decide)) ?_
    fin_cases ho <;> decide
  · exact char_mem_append_left _ _ _ (char_mem_append_right _ _ _ (by decide))
  · unfold Users.badges_url
    simp only [addLimit, addSortOrder]
    rw [addCursor_some _ _ hc]
  · exact qmark_not_mem_badges_base uid
  · exact char_mem_append_left _ _ _ (char_mem_append_right _ _ _ (by decide))
  · unfold Users.followers_url
    simp only [addLimit, addSortOrder]
    rw [addCursor_some _ _ hc]
  · exact qmark_not_mem_followers_base uid
  · exact char_mem_append_left _ _ _ (char_mem_append_right _ _ _ (by decide))
  · unfold Users.followings_url
    simp only [addLimit, addSortOrder]
    rw [addCursor_some _ _ hc]
  · exact qmark_not_mem_followings_base uid
  · exact char_mem_append_left _ _ _ (char_mem_append_right _ _ _ (by decide))

/-- C10 witness at uid 1 with limit 10, sortOrder Asc and a concrete
cursor. -/
theorem claim_C10_witness :
    Users.followers_url 1 (some 10) none none
      = .ok (Users.followers_base 1 ++ "&limit=" ++ toString (10 : Int)) ∧
    '?' ∉ (Users.followers_base 1 ++ "&limit=" ++ toString (10 : Int)).data ∧
    Users.followers_url 1 none none (some "Asc")
      = .ok (Users.followers_base 1 ++ "&sortOrder=" ++ "Asc") ∧
    Users.followers_url 1 none (some "tok") none
      = .ok (Users.followers_base 1 ++ "&cursor=" ++ "tok") := by
  refine ⟨?_, ?_, ?_, ?_⟩
  · exact ((claim_C10_ampersand_joined_params 1 10 "Asc" "tok").1 (by decide)).2.1.1
  · exact ((claim_C10_ampersand_joined_params 1 10 "Asc" "tok").1 (by decide)).2.1.2.1
  · exact ((claim_C10_ampersand_joined_params 1 10 "Asc" "tok").2.1 (by decide)).2.1.1
  · exact ((claim_C10_ampersand_joined_params 1 10 "Asc" "tok").2.2 (by decide)).2.1.1

end BloxPy
